import Mathlib

/-!
Verification of the request-orchestration layer of
`tradingagents/api/analysis_service.py` (FastAPI stock-analysis HTTP service).

The Python module is shallowly embedded below.  External collaborators that
live outside the embedded module (`validate_analysis_params`,
`collect_required_api_key_status`, `run_stock_analysis`, the report exporter,
`DEFAULT_CONFIG`, the process environment, the random source, the clock and
the uuid generator) are passed to the handler as explicit parameters, so the
theorems quantify over every possible behaviour of those collaborators.
Python truthiness on strings / lists / dicts (empty is falsy) is modelled by
dedicated helper functions.
-/

namespace AnalysisService

/-- Process environment: a finite map from variable names to values.
`none` models an unset variable; `some ""` models a variable set to the
empty string (Python's `os.getenv` distinguishes the two). -/
def EnvMap : Type := String → Option String

/-- Semantics of `os.getenv(key, default)`: the stored value when the key is present
(even if empty), otherwise the default. -/
def getenvD (env : EnvMap) (key default : String) : String :=
  (env key).getD default

/-- Python `a or b` on an optional string `a` and plain string `b`:
`None` and `""` are falsy. -/
def pyOrStr (a : Option String) (b : String) : String :=
  match a with
  | none => b
  | some s => if s = "" then b else s

/-- Python `a or b` on two optional strings, with `None` and `""` falsy. -/
def pyOr (a b : Option String) : Option String :=
  match a with
  | none => b
  | some s => if s = "" then b else some s

/-- Python truthiness of an optional string: `None` and `""` are falsy. -/
def pyTruthy (a : Option String) : Bool :=
  match a with
  | none => false
  | some s => s ≠ ""

/-- The three market types accepted by the service
(`Literal["A股", "港股", "美股"]`). -/
inductive MarketType
  | aShare
  | hkShare
  | usShare
deriving DecidableEq, Repr

/-- The four analyst identifiers
(`Literal["market", "social", "news", "fundamentals"]`). -/
inductive AnalystType
  | market
  | social
  | news
  | fundamentals
deriving DecidableEq, Repr

/-- The literal string denoted by an analyst identifier. -/
def AnalystType.str : AnalystType → String
  | .market => "market"
  | .social => "social"
  | .news => "news"
  | .fundamentals => "fundamentals"

/-- The default analyst pair, `["market", "fundamentals"]`. -/
def DEFAULT_ANALYSTS : List AnalystType := [.market, .fundamentals]

/-- Source `_mask_api_key`: empty key renders empty, a key of at most 8 characters
renders as that many asterisks, otherwise first 4 + `"***"` + last 4. -/
def _mask_api_key (api_key : String) : String :=
  if api_key = "" then ""
  else if api_key.length ≤ 8 then String.mk (List.replicate api_key.length '*')
  else String.mk (api_key.data.take 4) ++ "***" ++
    String.mk (api_key.data.drop (api_key.length - 4))

/-- Python `s.split(",")` on the character list: split at every comma,
keeping empty segments. -/
def splitOnComma : List Char → List (List Char)
  | [] => [[]]
  | c :: rest =>
    let r := splitOnComma rest
    if c = ',' then [] :: r
    else
      match r with
      | [] => [[c]]
      | h :: t => (c :: h) :: t

/-- Python `s.strip()`: drop whitespace from both ends. -/
def pyStrip (l : List Char) : List Char :=
  ((l.dropWhile Char.isWhitespace).reverse.dropWhile Char.isWhitespace).reverse

/-- The credential pool derived from the raw `SILICONFLOW_API_KEY` value:
replace every `;` by `,`, split on `,`, strip each token, drop empty tokens
(lines 68–69 of the source). -/
def siliconflowPool (raw : String) : List String :=
  ((splitOnComma (raw.data.map fun c => if c = ';' then ',' else c)).map
    fun l => String.mk (pyStrip l)).filter fun s => s ≠ ""

/-- Source `_select_random_siliconflow_api_key`: read the raw configured value,
return `none` when it is empty or yields no candidates, otherwise pick a
pool element.  `random.choice(candidates)` is modelled by an injected
index `rng`, reduced modulo the pool size, so every possible run of the
Python code corresponds to some value of `rng`. -/
def _select_random_siliconflow_api_key (env : EnvMap) (rng : Nat) :
    Option String :=
  let raw_value := getenvD env "SILICONFLOW_API_KEY" ""
  if raw_value = "" then none
  else
    let candidates := siliconflowPool raw_value
    if candidates.isEmpty then none
    else some (candidates.getD (rng % candidates.length) "")

/-- The entries of `DEFAULT_CONFIG` read by the service; `none` models an
absent dictionary key. -/
structure DefaultConfig where
  llm_provider : Option String
  llm_model : Option String
  deep_think_llm : Option String

/-- The body of an `HTTPException`: either a plain string or a list of
validation error strings. -/
inductive Detail
  | text (s : String)
  | list (l : List String)
deriving DecidableEq, Repr

/-- An `HTTPException`: status code plus detail. -/
structure HTTPError where
  status_code : Nat
  detail : Detail
deriving DecidableEq, Repr

/-- The resolved `{provider, model}` pair. -/
structure LLMSettings where
  provider : String
  model : String
deriving DecidableEq, Repr

/-- Source `_resolve_llm_settings`: merge request overrides with environment
variables and `DEFAULT_CONFIG`; raise 400 when no model can be determined
(lines 160–182 of the source). -/
def _resolve_llm_settings (env : EnvMap) (cfg : DefaultConfig)
    (preferred_provider preferred_model : Option String) :
    Except HTTPError LLMSettings :=
  let provider := pyOrStr preferred_provider
    (getenvD env "TRADINGAGENTS_API_LLMPROVIDER" (cfg.llm_provider.getD "dashscope"))
  let default_model := pyOr (env "TRADINGAGENTS_API_LLMMODEL")
    (pyOr cfg.llm_model cfg.deep_think_llm)
  let model := pyOr preferred_model default_model
  if pyTruthy model = false then
    .error ⟨400, .text "无法确定大模型名称，请在请求中指定 llm_model 或配置默认值"⟩
  else
    .ok ⟨provider, model.getD ""⟩

/-- The inbound HTTP request body (`AnalysisRequest`).  The `analysis_date`
field carries the ISO string of the parsed calendar date (the handler only
ever uses `request.analysis_date.isoformat()`). -/
structure AnalysisRequest where
  stock_symbol : String
  market_type : MarketType
  analysis_date : String
  analysts : Option (List AnalystType)
  research_depth : Int
  llm_provider : Option String
  llm_model : Option String
deriving DecidableEq, Repr

/-- Readiness snapshot returned by `collect_required_api_key_status`:
per-label availability plus the derived list of missing labels. -/
structure ReadinessSnapshot where
  statuses : List (String × Bool)
  missing : List String

/-- The raw outcome dictionary returned by `run_stock_analysis`, restricted
to its documented fields (each may be absent).  Opaque nested payloads
(`decision`, `state`, `metadata`) are modelled as string dictionaries. -/
structure AnalysisResult where
  stock_symbol : Option String
  market_type : Option MarketType
  analysis_date : Option String
  analysts : Option (List String)
  research_depth : Option Int
  llm_provider : Option String
  llm_model : Option String
  decision : Option (List (String × String))
  state : Option (List (String × String))
  metadata : Option (List (String × String))
  success : Option Bool
  error : Option String
  session_id : Option String
  is_demo : Option Bool
  demo_reason : Option String
deriving DecidableEq, Repr

/-- The normalized dictionary returned by `format_analysis_results`; the
handler reads these keys from it (each may be absent).  `market_type` is a
key the dictionary may carry but the handler never reads. -/
structure FormattedResult where
  stock_symbol : Option String
  market_type : Option MarketType
  analysis_date : Option String
  analysts : Option (List String)
  research_depth : Option Int
  llm_provider : Option String
  llm_model : Option String
  decision : Option (List (String × String))
  state : Option (List (String × String))
  metadata : Option (List (String × String))
  success : Option Bool
  error : Option String
deriving DecidableEq, Repr

/-- Modelled from the spec: `format_analysis_results`
(`web.utils.analysis_runner`) is not under `src/`.  Per the spec it is a
Result Formatter `format(outcome) -> normalized mapping` that only reads
the outcome's documented fields; the normalized mapping carries those
fields through unchanged. -/
def format_analysis_results (r : AnalysisResult) : FormattedResult :=
  { stock_symbol := r.stock_symbol
    market_type := r.market_type
    analysis_date := r.analysis_date
    analysts := r.analysts
    research_depth := r.research_depth
    llm_provider := r.llm_provider
    llm_model := r.llm_model
    decision := r.decision
    state := r.state
    metadata := r.metadata
    success := r.success
    error := r.error }

/-- The positional arguments handed to `run_stock_analysis`
(lines 246–253 of the source). -/
structure RunArgs where
  stock_symbol : String
  analysis_date : String
  analysts : List AnalystType
  research_depth : Int
  llm_provider : String
  llm_model : String
  market_type : MarketType
  override_siliconflow_api_key : Option String
deriving DecidableEq, Repr

/-- What a call to `run_stock_analysis` can do: return an outcome, raise an
`HTTPException` (re-raised untouched by the handler), or raise any other
exception carrying a message. -/
inductive RunOutcome
  | ok (r : AnalysisResult)
  | httpTrouble (e : HTTPError)
  | trouble (msg : String)
deriving DecidableEq, Repr

/-- The `analysis` payload of the HTTP response body (`AnalysisPayload`). -/
structure AnalysisPayload where
  stock_symbol : String
  market_type : MarketType
  analysis_date : String
  analysts : List String
  research_depth : Int
  llm_provider : String
  llm_model : String
  decision : List (String × String)
  state : List (String × String)
  metadata : Option (List (String × String))
  success : Bool
  error : Option String
  session_id : Option String
  is_demo : Bool
  demo_reason : Option String
  markdown_report : Option String
deriving DecidableEq, Repr

/-- The HTTP response body (`AnalysisResponse`). -/
structure AnalysisResponse where
  request_id : String
  duration_ms : Nat
  analysis : AnalysisPayload
deriving DecidableEq, Repr

/-- Observable steps of one request's handling, in program order. -/
inductive Event
  | validateCall
  | resolveConfig
  | selectCredential
  | readinessCheck
  | genRequestId
  | dispatchCall
deriving DecidableEq, Repr

/-- The external collaborators and ambient inputs of one request's handling:
the parameter validator, the process environment, `DEFAULT_CONFIG`, the
random index used by credential selection, the readiness collaborator, the
computation engine, the result formatter, the optional report exporter
(`none` models `REPORT_EXPORTER is None`; the function may fail), the uuid
drawn for this request, and the measured wall-clock duration. -/
structure Collab where
  validate : String → String → List AnalystType → Int → MarketType → Bool × List String
  env : EnvMap
  cfg : DefaultConfig
  rng : Nat
  collectStatus : String → Option String → ReadinessSnapshot
  runAnalysis : RunArgs → RunOutcome
  formatResults : AnalysisResult → FormattedResult
  reportExporter : Option (FormattedResult → Except String String)
  requestId : String
  durationMs : Nat

/-- Line 199, `request.analysts or DEFAULT_ANALYSTS`: `None` and the empty
list are falsy. -/
def effectiveAnalysts (a : Option (List AnalystType)) : List AnalystType :=
  match a with
  | none => DEFAULT_ANALYSTS
  | some l => if l.isEmpty then DEFAULT_ANALYSTS else l

/-- Python join of the labels with a comma and a space. -/
def joinCommaSpace : List String → String
  | [] => ""
  | [s] => s
  | s :: rest => s ++ ", " ++ joinCommaSpace rest

/-- Source `_ensure_environment_ready`: raise 503 listing the missing labels when
the readiness snapshot reports any (lines 143–157 of the source). -/
def _ensure_environment_ready
    (collectStatus : String → Option String → ReadinessSnapshot)
    (llm_provider : String) (override_siliconflow_api_key : Option String) :
    Except HTTPError Unit :=
  let status_snapshot := collectStatus llm_provider override_siliconflow_api_key
  if status_snapshot.missing.isEmpty then .ok ()
  else .error ⟨503, .text ("运行环境缺少必要配置: " ++ joinCommaSpace status_snapshot.missing)⟩

/-- Python `x or {}` on an optional dictionary (an empty dictionary is
falsy, so both `None` and `{}` yield `{}`). -/
def pyOrEmptyDict (o : Option (List (String × String))) : List (String × String) :=
  match o with
  | none => []
  | some d => if d.isEmpty then [] else d

/-- Lines 275–280: generate the markdown report only when the formatted
result's `success` value is truthy and an exporter is available; a raised
exception degrades to no report. -/
def computeMarkdown (reportExporter : Option (FormattedResult → Except String String))
    (formatted_result : FormattedResult) : Option String :=
  if formatted_result.success.getD false then
    match reportExporter with
    | some gen =>
      match gen formatted_result with
      | .ok md => some md
      | .error _ => none
    | none => none
  else none

/-- Lines 282–299: assemble the `AnalysisPayload`, falling back to the
request's values for fields the formatted result omits.  `market_type` is
taken directly from the request. -/
def assemblePayload (request : AnalysisRequest) (analysts : List AnalystType)
    (analysis_date_str : String) (llm_settings : LLMSettings)
    (analysis_result : AnalysisResult) (formatted_result : FormattedResult)
    (markdown_report : Option String) : AnalysisPayload :=
  { stock_symbol := formatted_result.stock_symbol.getD request.stock_symbol
    market_type := request.market_type
    analysis_date := formatted_result.analysis_date.getD analysis_date_str
    analysts := formatted_result.analysts.getD (analysts.map AnalystType.str)
    research_depth := formatted_result.research_depth.getD request.research_depth
    llm_provider := formatted_result.llm_provider.getD llm_settings.provider
    llm_model := formatted_result.llm_model.getD llm_settings.model
    decision := pyOrEmptyDict formatted_result.decision
    state := pyOrEmptyDict formatted_result.state
    metadata := formatted_result.metadata
    success := formatted_result.success.getD false
    error := formatted_result.error
    session_id := analysis_result.session_id
    is_demo := analysis_result.is_demo.getD false
    demo_reason := analysis_result.demo_reason
    markdown_report := markdown_report }

/-- Lines 241–305: dispatch `run_stock_analysis`, translate exceptions
(`HTTPException` re-raised, anything else to a 500 whose detail embeds the
exception text), then format, render and assemble the response. -/
def dispatchAndAssemble (c : Collab) (request : AnalysisRequest)
    (analysts : List AnalystType) (analysis_date_str : String)
    (llm_settings : LLMSettings) (override_siliconflow_api_key : Option String) :
    List Event × Except HTTPError AnalysisResponse :=
  match c.runAnalysis ⟨request.stock_symbol, analysis_date_str, analysts,
      request.research_depth, llm_settings.provider, llm_settings.model,
      request.market_type, override_siliconflow_api_key⟩ with
  | .httpTrouble e => ([.dispatchCall], .error e)
  | .trouble msg =>
    ([.dispatchCall], .error ⟨500, .text ("分析执行失败: " ++ msg)⟩)
  | .ok analysis_result =>
    let formatted_result := c.formatResults analysis_result
    let markdown_report := computeMarkdown c.reportExporter formatted_result
    ([.dispatchCall], .ok ⟨c.requestId, c.durationMs,
      assemblePayload request analysts analysis_date_str llm_settings
        analysis_result formatted_result markdown_report⟩)

/-- Lines 226–305: the tail of the handler after credential selection —
readiness check, request-id generation, then dispatch and assembly. -/
def afterCredential (c : Collab) (request : AnalysisRequest)
    (analysts : List AnalystType) (analysis_date_str : String)
    (llm_settings : LLMSettings) (override_siliconflow_api_key : Option String) :
    List Event × Except HTTPError AnalysisResponse :=
  match _ensure_environment_ready c.collectStatus llm_settings.provider
      override_siliconflow_api_key with
  | .error e => ([.readinessCheck], .error e)
  | .ok _ =>
    let tail := dispatchAndAssemble c request analysts analysis_date_str
      llm_settings override_siliconflow_api_key
    ([.readinessCheck, .genRequestId] ++ tail.1, tail.2)

/-- Source `create_analysis` (lines 197–305): the `POST /api/v1/analysis` handler.
Returns the ordered trace of handling steps together with the response or
the raised `HTTPException`. -/
def create_analysis (c : Collab) (request : AnalysisRequest) :
    List Event × Except HTTPError AnalysisResponse :=
  let analysts := effectiveAnalysts request.analysts
  let analysis_date_str := request.analysis_date
  let validation := c.validate request.stock_symbol analysis_date_str analysts
    request.research_depth request.market_type
  if validation.1 = false then
    ([.validateCall], .error ⟨422, .list validation.2⟩)
  else
    match _resolve_llm_settings c.env c.cfg request.llm_provider request.llm_model with
    | .error e => ([.validateCall, .resolveConfig], .error e)
    | .ok llm_settings =>
      if llm_settings.provider = "siliconflow" then
        match _select_random_siliconflow_api_key c.env c.rng with
        | none =>
          ([.validateCall, .resolveConfig, .selectCredential],
            .error ⟨503, .text "SiliconFlow 未配置有效的 API 密钥"⟩)
        | some key =>
          let tail := afterCredential c request analysts analysis_date_str
            llm_settings (some key)
          ([.validateCall, .resolveConfig, .selectCredential] ++ tail.1, tail.2)
      else
        let tail := afterCredential c request analysts analysis_date_str
          llm_settings none
        ([.validateCall, .resolveConfig] ++ tail.1, tail.2)

/-! ### Concrete fixtures used by counterexamples and witnesses -/

/-- A `DEFAULT_CONFIG` with the usual provider/model defaults present. -/
def cfgBase : DefaultConfig := ⟨some "dashscope", some "qwen-max", none⟩

/-- An environment whose provider override is set to the empty string. -/
def envEmptyProvider : EnvMap :=
  fun k => if k = "TRADINGAGENTS_API_LLMPROVIDER" then some "" else none

/-- An environment whose model override is set. -/
def envModelOverride : EnvMap :=
  fun k => if k = "TRADINGAGENTS_API_LLMMODEL" then some "qwen-env" else none

/-- An environment carrying the pool value `"k1,k2;k3"`. -/
def envPool : EnvMap :=
  fun k => if k = "SILICONFLOW_API_KEY" then some "k1,k2;k3" else none

/-- A well-formed request with every optional field omitted. -/
def requestBase : AnalysisRequest :=
  ⟨"600000", .aShare, "2024-01-01", none, 3, none, none⟩

/-- A request selecting the pooled-credential provider. -/
def requestSilicon : AnalysisRequest :=
  { requestBase with llm_provider := some "siliconflow", llm_model := some "m" }

/-- A baseline collaborator set: validation passes, environment empty,
defaults present, readiness always satisfied, the computation raises a
plain exception with message `"boom"`. -/
def collabBoom : Collab :=
  { validate := fun _ _ _ _ _ => (true, [])
    env := fun _ => none
    cfg := cfgBase
    rng := 0
    collectStatus := fun _ _ => ⟨[], []⟩
    runAnalysis := fun _ => .trouble "boom"
    formatResults := format_analysis_results
    reportExporter := none
    requestId := "rid"
    durationMs := 7 }

/-- Collaborators whose validator rejects every request. -/
def collabReject : Collab :=
  { collabBoom with validate := fun _ _ _ _ _ => (false, ["参数校验失败"]) }

/-- The outcome of a run that concluded with a failed business result. -/
def resultRateLimited : AnalysisResult :=
  { stock_symbol := none, market_type := none, analysis_date := none,
    analysts := none, research_depth := none, llm_provider := none,
    llm_model := none, decision := none, state := none, metadata := none,
    success := some false, error := some "rate limited", session_id := none,
    is_demo := none, demo_reason := none }

/-- Collaborators whose computation returns the failed business result. -/
def collabRateLimited : Collab :=
  { collabBoom with runAnalysis := fun _ => .ok resultRateLimited }

/-- An outcome dictionary that omits every documented field. -/
def resultEmptyFields : AnalysisResult :=
  { stock_symbol := none, market_type := none, analysis_date := none,
    analysts := none, research_depth := none, llm_provider := none,
    llm_model := none, decision := none, state := none, metadata := none,
    success := none, error := none, session_id := none, is_demo := none,
    demo_reason := none }

/-- A formatted result that supplies only `market_type`, a key the
assembler never reads. -/
def formattedUS : FormattedResult :=
  { stock_symbol := none, market_type := some .usShare, analysis_date := none,
    analysts := none, research_depth := none, llm_provider := none,
    llm_model := none, decision := none, state := none, metadata := none,
    success := none, error := none }

/-- A formatted result that supplies every echoed field. -/
def formattedRich : FormattedResult :=
  { stock_symbol := some "000001", market_type := some .usShare,
    analysis_date := some "2024-02-02", analysts := some ["news"],
    research_depth := some 5, llm_provider := some "deepseek",
    llm_model := some "dv3", decision := none, state := none,
    metadata := none, success := some true, error := none }

/-! ### Helper lemmas -/

lemma pyTruthy_getD_ne (o : Option String) (h : pyTruthy o = true) :
    o.getD "" ≠ "" := by
  cases o with
  | none => simp [pyTruthy] at h
  | some s =>
    simp only [pyTruthy, decide_eq_true_eq] at h
    simpa using h

lemma siliconflowPool_empty : siliconflowPool "" = [] := rfl

/-- Every credential the selector returns lies in the derived pool. -/
lemma select_mem_pool (env : EnvMap) (rng : Nat) (k : String)
    (h : _select_random_siliconflow_api_key env rng = some k) :
    k ∈ siliconflowPool (getenvD env "SILICONFLOW_API_KEY" "") := by
  unfold _select_random_siliconflow_api_key at h
  set raw := getenvD env "SILICONFLOW_API_KEY" "" with hraw
  by_cases h0 : raw = ""
  · simp [h0] at h
  · rw [if_neg h0] at h
    set candidates := siliconflowPool raw with hc
    by_cases he : candidates.isEmpty
    · simp [he] at h
    · rw [if_neg he] at h
      have hne : candidates ≠ [] := by
        intro hnil
        rw [hnil] at he
        simp at he
      have hlen : rng % candidates.length < candidates.length :=
        Nat.mod_lt _ (List.length_pos.mpr hne)
      have : candidates.getD (rng % candidates.length) "" =
          candidates.get ⟨rng % candidates.length, hlen⟩ := by
        simp [List.getD_eq_getElem?_getD, List.getElem?_eq_getElem hlen]
      rw [this] at h
      have hk : candidates.get ⟨rng % candidates.length, hlen⟩ = k :=
        Option.some.inj h
      rw [← hk]
      exact List.get_mem _ _ hlen

/-- When the derived pool is a single credential, the selector returns it
for every random index. -/
lemma select_singleton (env : EnvMap) (rng : Nat) (k : String)
    (h : siliconflowPool (getenvD env "SILICONFLOW_API_KEY" "") = [k]) :
    _select_random_siliconflow_api_key env rng = some k := by
  unfold _select_random_siliconflow_api_key
  set raw := getenvD env "SILICONFLOW_API_KEY" "" with hraw
  have h0 : raw ≠ "" := by
    intro hr
    rw [hr, siliconflowPool_empty] at h
    exact List.cons_ne_nil _ _ h.symm
  rw [if_neg h0, h]
  simp [Nat.mod_one]

/-- When the derived pool is empty, the selector returns nothing. -/
lemma select_none_of_pool_nil (env : EnvMap) (rng : Nat)
    (h : siliconflowPool (getenvD env "SILICONFLOW_API_KEY" "") = []) :
    _select_random_siliconflow_api_key env rng = none := by
  unfold _select_random_siliconflow_api_key
  by_cases h0 : getenvD env "SILICONFLOW_API_KEY" "" = ""
  · simp [h0]
  · rw [if_neg h0, h]
    simp

/-! ### C5 — model resolution never yields an empty model -/

/-- C5 counterexample: with the environment provider override set to the
empty string, `_resolve_llm_settings` succeeds yet the resolved provider is
the empty string, so the resolved settings do not always carry a non-empty
provider as claimed. -/
theorem resolve_empty_provider_cex :
    ∃ s, _resolve_llm_settings envEmptyProvider cfgBase none (some "my-model") =
      .ok s ∧ s.provider = "" :=
  ⟨⟨"", "my-model"⟩, rfl, rfl⟩

/-- C5 (amended): `_resolve_llm_settings` either succeeds with a non-empty
model or fails with the explicit 400 configuration-incomplete error; the
provider component is not checked for non-emptiness. -/
theorem resolve_model_never_empty (env : EnvMap) (cfg : DefaultConfig)
    (pp pm : Option String) :
    (∃ s, _resolve_llm_settings env cfg pp pm = .ok s ∧ s.model ≠ "") ∨
    _resolve_llm_settings env cfg pp pm =
      .error ⟨400, .text "无法确定大模型名称，请在请求中指定 llm_model 或配置默认值"⟩ := by
  unfold _resolve_llm_settings
  set model := pyOr pm (pyOr (env "TRADINGAGENTS_API_LLMMODEL")
    (pyOr cfg.llm_model cfg.deep_think_llm)) with hm
  by_cases h : pyTruthy model = false
  · right
    rw [if_pos h]
  · left
    rw [if_neg h]
    exact ⟨_, rfl, pyTruthy_getD_ne model (by revert h; cases pyTruthy model <;> simp)⟩

/-! ### C6 — request-supplied model taken verbatim -/

/-- C6 counterexample: a request that supplies the empty string as
`llm_model` does not get it back verbatim — the falsy empty string falls
through to the environment default. -/
theorem resolve_verbatim_cex :
    _resolve_llm_settings envModelOverride cfgBase none (some "") =
      .ok ⟨"dashscope", "qwen-env"⟩ ∧ "qwen-env" ≠ "" :=
  ⟨rfl, by decide⟩

/-- C6 (amended): when the request supplies a non-empty `llm_model`, the
resolved model equals it verbatim, whatever the environment and defaults. -/
theorem resolve_model_verbatim (env : EnvMap) (cfg : DefaultConfig)
    (pp : Option String) (m : String) (h : m ≠ "") :
    ∃ p, _resolve_llm_settings env cfg pp (some m) = .ok ⟨p, m⟩ := by
  refine ⟨pyOrStr pp (getenvD env "TRADINGAGENTS_API_LLMPROVIDER"
    (cfg.llm_provider.getD "dashscope")), ?_⟩
  unfold _resolve_llm_settings
  simp [pyOr, pyTruthy, h]

/-- C6 witness: a concrete non-empty supplied model is resolved verbatim
even with an environment model override present. -/
theorem resolve_model_verbatim_witness :
    ∃ p, _resolve_llm_settings envModelOverride cfgBase none (some "my-model") =
      .ok ⟨p, "my-model"⟩ :=
  resolve_model_verbatim envModelOverride cfgBase none "my-model" (by decide)

/-! ### C8 — credential pool derivation and selection -/

/-- C8: the pool of `"k1,k2;k3"` is exactly `[k1, k2, k3]`; every selected
credential belongs to the derived pool; a singleton pool is selected
deterministically. -/
theorem siliconflow_pool_spec :
    siliconflowPool "k1,k2;k3" = ["k1", "k2", "k3"] ∧
    (∀ env rng k, _select_random_siliconflow_api_key env rng = some k →
      k ∈ siliconflowPool (getenvD env "SILICONFLOW_API_KEY" "")) ∧
    (∀ env rng k,
      siliconflowPool (getenvD env "SILICONFLOW_API_KEY" "") = [k] →
      _select_random_siliconflow_api_key env rng = some k) :=
  ⟨by decide, select_mem_pool, select_singleton⟩

/-- C8 witness: on the concrete pool `"k1,k2;k3"` with random index 1 the
selector returns `"k2"`, which the theorem places in the derived pool. -/
theorem siliconflow_pool_spec_witness :
    "k2" ∈ siliconflowPool (getenvD envPool "SILICONFLOW_API_KEY" "") :=
  siliconflow_pool_spec.2.1 envPool 1 "k2" (by decide)

/-! ### C9 — credential masking -/

/-- C9: a credential of at most 8 characters masks to as many asterisks;
a longer one masks to its first 4 characters, `"***"`, and its last 4. -/
theorem mask_api_key_spec (s : String) :
    (s.length ≤ 8 → _mask_api_key s = String.mk (List.replicate s.length '*')) ∧
    (8 < s.length → _mask_api_key s = String.mk (s.data.take 4) ++ "***" ++
      String.mk (s.data.drop (s.length - 4))) := by
  constructor
  · intro h
    unfold _mask_api_key
    by_cases h0 : s = ""
    · subst h0; rfl
    · rw [if_neg h0, if_pos h]
  · intro h
    unfold _mask_api_key
    have h0 : s ≠ "" := by
      intro he
      subst he
      simp [String.length] at h
    rw [if_neg h0, if_neg (by omega)]

/-- C9 witness: the length-10 credential of the spec masks to
`"abcd***gh12"`. -/
theorem mask_api_key_spec_witness :
    _mask_api_key "abcdefgh12" = "abcd***gh12" := by
  have h := (mask_api_key_spec "abcdefgh12").2 (by decide)
  exact h.trans (by decide)

/-! ### Shape lemmas for the handler -/

/-- The dispatch phase always records exactly one dispatch event. -/
lemma dispatchAndAssemble_fst (c : Collab) (request : AnalysisRequest)
    (analysts : List AnalystType) (dateStr : String) (llm : LLMSettings)
    (ov : Option String) :
    (dispatchAndAssemble c request analysts dateStr llm ov).1 =
      [Event.dispatchCall] := by
  unfold dispatchAndAssemble
  split <;> rfl

/-- When the computation raises a plain exception with message `msg`, the
dispatch phase yields the 500 error embedding that message. -/
lemma dispatchAndAssemble_trouble (c : Collab) (request : AnalysisRequest)
    (analysts : List AnalystType) (dateStr : String) (llm : LLMSettings)
    (ov : Option String) (msg : String)
    (H : ∀ args, c.runAnalysis args = .trouble msg) :
    dispatchAndAssemble c request analysts dateStr llm ov =
      ([Event.dispatchCall], .error ⟨500, .text ("分析执行失败: " ++ msg)⟩) := by
  unfold dispatchAndAssemble
  rw [H]

/-- The post-credential tail either stops at the readiness gate with an
error, or performs readiness, id generation and dispatch. -/
lemma afterCredential_split (c : Collab) (request : AnalysisRequest)
    (analysts : List AnalystType) (dateStr : String) (llm : LLMSettings)
    (ov : Option String) :
    ((afterCredential c request analysts dateStr llm ov).1 =
        [Event.readinessCheck] ∧
      ∃ e, (afterCredential c request analysts dateStr llm ov).2 = .error e) ∨
    ((afterCredential c request analysts dateStr llm ov).1 =
        [Event.readinessCheck, Event.genRequestId, Event.dispatchCall] ∧
      (afterCredential c request analysts dateStr llm ov).2 =
        (dispatchAndAssemble c request analysts dateStr llm ov).2) := by
  unfold afterCredential
  cases he : _ensure_environment_ready c.collectStatus llm.provider ov with
  | error e => exact Or.inl ⟨rfl, e, rfl⟩
  | ok u =>
    refine Or.inr ⟨?_, rfl⟩
    dsimp only
    rw [dispatchAndAssemble_fst]
    rfl

/-- Each run of the handler either never generates a request id nor
dispatches (an early gate failed), or runs the full readiness → id →
dispatch tail and returns the dispatch phase's result. -/
lemma create_analysis_split (c : Collab) (request : AnalysisRequest) :
    (Event.genRequestId ∉ (create_analysis c request).1 ∧
      Event.dispatchCall ∉ (create_analysis c request).1) ∨
    (∃ llm ov pre, (create_analysis c request).1 =
        pre ++ [Event.readinessCheck, Event.genRequestId, Event.dispatchCall] ∧
      (create_analysis c request).2 =
        (dispatchAndAssemble c request (effectiveAnalysts request.analysts)
          request.analysis_date llm ov).2) := by
  by_cases hv : (c.validate request.stock_symbol request.analysis_date
      (effectiveAnalysts request.analysts) request.research_depth
      request.market_type).1 = false
  · left
    constructor <;> simp [create_analysis, hv]
  · cases hr : _resolve_llm_settings c.env c.cfg request.llm_provider
        request.llm_model with
    | error e =>
      left
      constructor <;> simp [create_analysis, hv, hr]
    | ok llm =>
      by_cases hp : llm.provider = "siliconflow"
      · cases hs : _select_random_siliconflow_api_key c.env c.rng with
        | none =>
          left
          constructor <;> simp [create_analysis, hv, hr, hp, hs]
        | some key =>
          rcases afterCredential_split c request (effectiveAnalysts request.analysts)
              request.analysis_date llm (some key) with ⟨h1, e, h2⟩ | ⟨h1, h2⟩
          · left
            constructor <;> simp [create_analysis, hv, hr, hp, hs, h1]
          · refine Or.inr ⟨llm, some key,
              [Event.validateCall, Event.resolveConfig, Event.selectCredential],
              ?_, ?_⟩
            · simp [create_analysis, hv, hr, hp, hs, h1]
            · simp [create_analysis, hv, hr, hp, hs, h2]
      · rcases afterCredential_split c request (effectiveAnalysts request.analysts)
            request.analysis_date llm none with ⟨h1, e, h2⟩ | ⟨h1, h2⟩
        · left
          constructor <;> simp [create_analysis, hv, hr, hp, h1]
        · refine Or.inr ⟨llm, none, [Event.validateCall, Event.resolveConfig],
            ?_, ?_⟩
          · simp [create_analysis, hv, hr, hp, h1]
          · simp [create_analysis, hv, hr, hp, h2]

/-! ### C1 — exceptions during dispatch -/

/-- C1 counterexample: with a computation raising `"boom"`, the handler
responds 500, but the response detail embeds the raw exception text
`"boom"` verbatim (as a substring of the message). -/
theorem dispatch_error_leak_cex :
    (create_analysis collabBoom requestBase).2 =
      .error ⟨500, .text ("分析执行失败: " ++ "boom")⟩ ∧
    ∃ pre post, "分析执行失败: " ++ "boom" = pre ++ "boom" ++ post :=
  ⟨rfl, "分析执行失败: ", "", by decide⟩

/-- C1 (amended): when the dispatched computation raises a plain exception,
the handler converts it into an HTTP 500 `HTTPException` rather than
propagating it, with a detail message equal to a fixed generic prefix
followed by the exception's own text (so the raw exception text appears
verbatim inside the message). -/
theorem dispatch_trouble_500 (c : Collab) (request : AnalysisRequest)
    (msg : String) (H : ∀ args, c.runAnalysis args = .trouble msg)
    (Hd : Event.dispatchCall ∈ (create_analysis c request).1) :
    (create_analysis c request).2 =
      .error ⟨500, .text ("分析执行失败: " ++ msg)⟩ := by
  rcases create_analysis_split c request with ⟨_, h2⟩ | ⟨llm, ov, pre, _, hres⟩
  · exact absurd Hd h2
  · rw [hres, dispatchAndAssemble_trouble c request _ _ llm ov msg H]

/-- C1 witness: the concrete `"boom"`-raising computation yields the 500
with the prefixed message. -/
theorem dispatch_trouble_500_witness :
    (create_analysis collabBoom requestBase).2 =
      .error ⟨500, .text ("分析执行失败: " ++ "boom")⟩ :=
  dispatch_trouble_500 collabBoom requestBase "boom" (fun _ => rfl) (by decide)

/-! ### C2 — request-id generation point -/

/-- C2 counterexample: a request rejected by the validator is handled with
no request id ever generated — the id is not generated at the start of
handling, so this pre-dispatch failure has none available. -/
theorem request_id_pre_gate_cex :
    (create_analysis collabReject requestBase).1 = [Event.validateCall] ∧
    Event.genRequestId ∉ (create_analysis collabReject requestBase).1 ∧
    (create_analysis collabReject requestBase).2 =
      .error ⟨422, .list ["参数校验失败"]⟩ :=
  ⟨rfl, by decide, rfl⟩

/-- C2 (amended): the request id is generated exactly when the request
passes all pre-dispatch gates — it exists if and only if the computation is
dispatched, so dispatch-time failures have a correlating id but failures at
validation, configuration resolution, credential selection or readiness
checking do not. -/
theorem request_id_iff_dispatch (c : Collab) (request : AnalysisRequest) :
    Event.genRequestId ∈ (create_analysis c request).1 ↔
    Event.dispatchCall ∈ (create_analysis c request).1 := by
  rcases create_analysis_split c request with ⟨h1, h2⟩ | ⟨llm, ov, pre, ht, _⟩
  · exact ⟨fun h => absurd h h1, fun h => absurd h h2⟩
  · rw [ht]
    simp

/-! ### C3 — empty credential pool short-circuits with 503 -/

/-- C3: when the resolved provider is `"siliconflow"` and the derived
credential pool is empty, the handler responds 503 naming the missing
SiliconFlow key and the computation is never dispatched. -/
theorem empty_pool_503 (c : Collab) (request : AnalysisRequest)
    (llm : LLMSettings)
    (hval : (c.validate request.stock_symbol request.analysis_date
      (effectiveAnalysts request.analysts) request.research_depth
      request.market_type).1 = true)
    (hres : _resolve_llm_settings c.env c.cfg request.llm_provider
      request.llm_model = .ok llm)
    (hprov : llm.provider = "siliconflow")
    (hpool : siliconflowPool (getenvD c.env "SILICONFLOW_API_KEY" "") = []) :
    (create_analysis c request).2 =
      .error ⟨503, .text "SiliconFlow 未配置有效的 API 密钥"⟩ ∧
    Event.dispatchCall ∉ (create_analysis c request).1 := by
  have hsel := select_none_of_pool_nil c.env c.rng hpool
  constructor <;> simp [create_analysis, hval, hres, hprov, hsel]

/-- C3 witness: a concrete siliconflow request against an environment with
no configured pool gets the 503 and no dispatch. -/
theorem empty_pool_503_witness :
    (create_analysis collabBoom requestSilicon).2 =
      .error ⟨503, .text "SiliconFlow 未配置有效的 API 密钥"⟩ ∧
    Event.dispatchCall ∉ (create_analysis collabBoom requestSilicon).1 :=
  empty_pool_503 collabBoom requestSilicon ⟨"siliconflow", "m"⟩ rfl rfl rfl rfl

/-! ### C4 — failed business result is an HTTP 200 -/

/-- C4: when the dispatched computation returns an outcome with a false
success flag and an error string, the handler returns an HTTP 200 response
whose payload has `success = false`, that error string, and no markdown
report. -/
theorem business_failure_200 (c : Collab) (request : AnalysisRequest)
    (r : AnalysisResult) (e : String)
    (hfmt : c.formatResults = format_analysis_results)
    (H : ∀ args, c.runAnalysis args = .ok r)
    (hsucc : r.success = some false) (herr : r.error = some e)
    (Hd : Event.dispatchCall ∈ (create_analysis c request).1) :
    ∃ resp, (create_analysis c request).2 = .ok resp ∧
      resp.analysis.success = false ∧ resp.analysis.error = some e ∧
      resp.analysis.markdown_report = none := by
  rcases create_analysis_split c request with ⟨_, h2⟩ | ⟨llm, ov, pre, _, hres⟩
  · exact absurd Hd h2
  · rw [hres]
    simp only [dispatchAndAssemble, H, hfmt]
    refine ⟨_, rfl, ?_, ?_, ?_⟩ <;>
      simp [assemblePayload, format_analysis_results, computeMarkdown, hsucc, herr]

/-- C4 witness: the concrete `"rate limited"` outcome maps to a 200 with
`success = false`, the same error string, and no report. -/
theorem business_failure_200_witness :
    ∃ resp, (create_analysis collabRateLimited requestBase).2 = .ok resp ∧
      resp.analysis.success = false ∧
      resp.analysis.error = some "rate limited" ∧
      resp.analysis.markdown_report = none :=
  business_failure_200 collabRateLimited requestBase resultRateLimited
    "rate limited" rfl (fun _ => rfl) rfl rfl (by decide)

/-! ### C7 — response assembler fallback -/

/-- C7 counterexample: the formatted result supplies a `market_type`, yet
the assembled payload carries the request's market type, not the
outcome's. -/
theorem assembler_market_type_cex :
    formattedUS.market_type = some MarketType.usShare ∧
    (assemblePayload requestBase DEFAULT_ANALYSTS "2024-01-01"
        ⟨"dashscope", "qwen-max"⟩ resultEmptyFields formattedUS
        none).market_type = MarketType.aShare ∧
    MarketType.aShare ≠ MarketType.usShare :=
  ⟨rfl, rfl, by decide⟩

/-- C7 (amended): the assembler applies field-by-field fallback — outcome
value when present, request/context value when absent — for
`stock_symbol`, `analysis_date`, `analysts`, `research_depth`,
`llm_provider` and `llm_model`, but `market_type` always echoes the
request, even when the outcome supplies one. -/
theorem assembler_fallback (request : AnalysisRequest)
    (analysts : List AnalystType) (dateStr : String) (llm : LLMSettings)
    (ar : AnalysisResult) (f : FormattedResult) (md : Option String)
    (p : AnalysisPayload)
    (hp : p = assemblePayload request analysts dateStr llm ar f md) :
    (∀ v, f.stock_symbol = some v → p.stock_symbol = v) ∧
    (f.stock_symbol = none → p.stock_symbol = request.stock_symbol) ∧
    (∀ v, f.analysis_date = some v → p.analysis_date = v) ∧
    (f.analysis_date = none → p.analysis_date = dateStr) ∧
    (∀ v, f.analysts = some v → p.analysts = v) ∧
    (f.analysts = none → p.analysts = analysts.map AnalystType.str) ∧
    (∀ v, f.research_depth = some v → p.research_depth = v) ∧
    (f.research_depth = none → p.research_depth = request.research_depth) ∧
    (∀ v, f.llm_provider = some v → p.llm_provider = v) ∧
    (f.llm_provider = none → p.llm_provider = llm.provider) ∧
    (∀ v, f.llm_model = some v → p.llm_model = v) ∧
    (f.llm_model = none → p.llm_model = llm.model) ∧
    p.market_type = request.market_type := by
  subst hp
  refine ⟨fun v hv => ?_, fun hv => ?_, fun v hv => ?_, fun hv => ?_,
    fun v hv => ?_, fun hv => ?_, fun v hv => ?_, fun hv => ?_,
    fun v hv => ?_, fun hv => ?_, fun v hv => ?_, fun hv => ?_, rfl⟩ <;>
    simp [assemblePayload, hv]

/-- C7 witness: with an outcome supplying every echoed field, the payload
takes the outcome's `llm_model` but still the request's market type. -/
theorem assembler_fallback_witness :
    (assemblePayload requestBase DEFAULT_ANALYSTS "2024-01-01"
      ⟨"dashscope", "qwen-max"⟩ resultEmptyFields formattedRich
      none).llm_model = "dv3" ∧
    (assemblePayload requestBase DEFAULT_ANALYSTS "2024-01-01"
      ⟨"dashscope", "qwen-max"⟩ resultEmptyFields formattedRich
      none).market_type = MarketType.aShare := by
  have h := assembler_fallback requestBase DEFAULT_ANALYSTS "2024-01-01"
    ⟨"dashscope", "qwen-max"⟩ resultEmptyFields formattedRich none _ rfl
  exact ⟨h.2.2.2.2.2.2.2.2.2.2.1 "dv3" rfl, h.2.2.2.2.2.2.2.2.2.2.2.2⟩

/-! ### C10 — explicitly empty analyst list defaults before validation -/

/-- C10: the effective analyst set is never empty, an explicitly empty
analyst list becomes the default pair before validation, and the handler
treats a request with an empty analyst list exactly like one that omitted
the field. -/
theorem empty_analysts_defaulted (c : Collab) (r : AnalysisRequest) :
    (∀ a, effectiveAnalysts a ≠ []) ∧
    effectiveAnalysts (some []) = DEFAULT_ANALYSTS ∧
    create_analysis c { r with analysts := some [] } =
      create_analysis c { r with analysts := none } := by
  refine ⟨?_, rfl, rfl⟩
  intro a
  cases a with
  | none => simp [effectiveAnalysts, DEFAULT_ANALYSTS]
  | some l =>
    by_cases h : l.isEmpty
    · simp [effectiveAnalysts, h, DEFAULT_ANALYSTS]
    · simp only [effectiveAnalysts, if_neg h]
      simpa using h

end AnalysisService
